import Mathlib

/-!
Shallow embedding of the storyteller-api task layer.

The definitions below are translated from the repository source:
* `src/app/celery_app/tasks/stories.py` — story mutation Celery tasks
* `src/app/celery_app/tasks/llm.py` — LLM Celery tasks
* `src/app/services/task_service.py` — TaskService (status / cancel / dispatch)
* `src/app/routers/llm.py`, `src/app/routers/stories.py`,
  `src/app/routers/tasks.py` — HTTP handlers
* `src/app/schemas/story.py` — Pydantic validation of story payloads
* `src/app/models/story.py` — the `Story` ORM row (`created_at` has a
  server default of now on insert, `updated_at` has `onupdate=func.now()`)

Celery itself is an external dependency; the small part of its contract the
source relies on is modelled explicitly: `Task.retry(countdown, max_retries,
exc)` re-queues the task in the RETRY state while the current retry count is
below `max_retries` and otherwise re-raises `exc`, ending the task in FAILURE;
`AsyncResult.status` of an unknown id is PENDING; `AsyncResult.ready()` holds
exactly on the READY_STATES {SUCCESS, FAILURE, REVOKED}.
-/

/-- JSON-like values, used for Celery payloads and `retry_config` dicts.
Booleans are distinct from integers, mirroring Python's `is False` identity
check distinguishing `False` from `0`. -/
inductive JVal where
  | str (s : String)
  | int (n : Int)
  | bool (b : Bool)
  | null
deriving Repr, DecidableEq

/-- Association-list lookup, modelling Python's `dict.get(key)` (`none` when
the key is absent). -/
def dictGet (cfg : List (String × JVal)) (key : String) : Option JVal :=
  (cfg.find? (fun kv => kv.1 == key)).map (fun kv => kv.2)

/-- Outcome of one Celery task attempt, as observed in the result store:
`success v` (state SUCCESS with result `v`), `retryState c e` (the attempt
ended by raising `Retry`; the task is re-queued with countdown `c` seconds and
shows state RETRY), or `failureState e` (terminal FAILURE carrying error `e`). -/
inductive TaskResult (α : Type) where
  | success (v : α)
  | retryState (countdown : Nat) (err : String)
  | failureState (err : String)
deriving Repr, DecidableEq

/-- Celery's `self.retry(countdown=c, max_retries=m, exc=e)` as called from the
task bodies: while the current retry count (`self.request.retries`) is below
`max_retries` the task enters RETRY with the given countdown; once retries are
exhausted the passed exception is re-raised, ending the task in FAILURE. -/
def celeryRetry {α : Type} (retries maxRetries countdown : Nat) (err : String) :
    TaskResult α :=
  if retries < maxRetries then .retryState countdown err else .failureState err

/-! ## Story data model (`src/app/models/story.py`, `src/app/schemas/story.py`) -/

/-- One row of the `stories` table. Timestamps are abstract `Nat` instants;
`created_at` is set by the server default on insert and `updated_at` by the
`onupdate=func.now()` hook on every UPDATE. The serializable snapshot the
tasks return copies exactly these eight fields, so the same structure models
both the row and the returned dict. -/
structure StoryRow where
  id : Nat
  title : String
  content : String
  author : String
  genre : Option String
  is_published : Bool
  created_at : Option Nat
  updated_at : Option Nat
deriving Repr, DecidableEq

/-- The stories table plus the autoincrement counter assigning ids on insert. -/
structure StoriesDB where
  rows : List StoryRow
  nextId : Nat
deriving Repr, DecidableEq

/-- `db.query(Story).filter(Story.id == story_id).first()`. -/
def findStory (db : StoriesDB) (story_id : Nat) : Option StoryRow :=
  db.rows.find? (fun r => r.id == story_id)

/-- Raw body for `StoryCreate(**story_data)`: `title`, `content`, `author` are
required; `genre` and `is_published` are optional (`none` = not supplied). -/
structure StoryCreateData where
  title : String
  content : String
  author : String
  genre : Option String := none
  is_published : Option Bool := none
deriving Repr, DecidableEq

/-- The validated `StoryCreate` Pydantic model. -/
structure StoryCreate where
  title : String
  content : String
  author : String
  genre : Option String
  is_published : Bool
deriving Repr, DecidableEq

/-- Pydantic validation of `StoryCreate`: `title` 1..200 chars, `content`
at least 1 char, `author` 1..100 chars, `genre` at most 50 chars;
`is_published` defaults to `False` when absent. -/
def StoryCreate.parse (d : StoryCreateData) : Except String StoryCreate :=
  if d.title.length < 1 || 200 < d.title.length then .error "validation error: title"
  else if d.content.length < 1 then .error "validation error: content"
  else if d.author.length < 1 || 100 < d.author.length then .error "validation error: author"
  else if (d.genre.map String.length).getD 0 > 50 then .error "validation error: genre"
  else .ok ⟨d.title, d.content, d.author, d.genre, (d.is_published.getD false)⟩

/-- Raw body for `StoryUpdate(**story_data)` after
`model_dump(exclude_unset=True)`: each field is `none` when it was omitted
from the payload. `genre` is nullable in the table, so a supplied value is
itself an `Option`. -/
structure StoryUpdateData where
  title : Option String := none
  content : Option String := none
  author : Option String := none
  genre : Option (Option String) := none
  is_published : Option Bool := none
deriving Repr, DecidableEq

/-- Pydantic validation of the supplied `StoryUpdate` fields
(`title` 1..200, `content` ≥ 1, `author` 1..100, `genre` ≤ 50 when present). -/
def StoryUpdateData.valid (u : StoryUpdateData) : Bool :=
  (match u.title with | none => true | some t => 1 ≤ t.length && t.length ≤ 200) &&
  (match u.content with | none => true | some c => 1 ≤ c.length) &&
  (match u.author with | none => true | some a => 1 ≤ a.length && a.length ≤ 100) &&
  (match u.genre with | none => true | some none => true
                      | some (some g) => g.length ≤ 50)

/-- The `setattr` loop of `update_story_task`: each supplied field overwrites
the row's field, omitted fields are left untouched. -/
def applyUpdate (r : StoryRow) (u : StoryUpdateData) : StoryRow :=
  { r with
    title := u.title.getD r.title
    content := u.content.getD r.content
    author := u.author.getD r.author
    genre := u.genre.getD r.genre
    is_published := u.is_published.getD r.is_published }

/-- Replace the row with id `story_id` by `row` (the committed UPDATE). -/
def commitRow (db : StoriesDB) (story_id : Nat) (row : StoryRow) : StoriesDB :=
  ⟨db.rows.map (fun r => if r.id == story_id then row else r), db.nextId⟩

/-! ## Story Celery tasks (`src/app/celery_app/tasks/stories.py`)

Each task is a function of the current Celery retry count
(`self.request.retries`), the database state, the commit instant `now`
(feeding the `onupdate`/server-default timestamps), and the task's own
arguments. It returns the attempt's `TaskResult` together with the database
state after the attempt (unchanged on any exception, since nothing was
committed). -/

/-- `stories.create_story`: parse the payload, insert a row (id from the
autoincrement counter, `created_at` from the server default, `updated_at`
NULL) and return its snapshot; any exception is retried with
`countdown=60, max_retries=3`. The source writes
`is_published=story_create.is_published or False`, mirrored literally. -/
def create_story_task (retries : Nat) (db : StoriesDB) (now : Nat)
    (story_data : StoryCreateData) : TaskResult StoryRow × StoriesDB :=
  match StoryCreate.parse story_data with
  | .error e => (celeryRetry retries 3 60 e, db)
  | .ok sc =>
      let row : StoryRow :=
        ⟨db.nextId, sc.title, sc.content, sc.author, sc.genre,
         (sc.is_published || false), some now, none⟩
      (.success row, ⟨db.rows ++ [row], db.nextId + 1⟩)

/-- `stories.update_story`: look the story up (raising `ValueError` when
missing), validate the payload, set exactly the supplied fields and commit.
SQLAlchemy's flush includes only attributes with a net change, so when every
supplied value equals the stored one (in particular for an empty payload) no
UPDATE is emitted, the `onupdate` hook never fires and the row — `updated_at`
included — is left untouched; otherwise the UPDATE triggers the hook, setting
`updated_at := now`. On any exception: retried with `countdown=60,
max_retries=3` unless `no_retry`, in which case the exception is re-raised
at once (terminal FAILURE). -/
def update_story_task (retries : Nat) (db : StoriesDB) (now : Nat)
    (story_id : Nat) (story_data : StoryUpdateData) (no_retry : Bool) :
    TaskResult StoryRow × StoriesDB :=
  match findStory db story_id with
  | none =>
      let err := s!"Story with id {story_id} not found"
      (if !no_retry then celeryRetry retries 3 60 err else .failureState err, db)
  | some story =>
      if !story_data.valid then
        let err := "validation error"
        (if !no_retry then celeryRetry retries 3 60 err else .failureState err, db)
      else if applyUpdate story story_data = story then
        (.success story, db)
      else
        let story' := { applyUpdate story story_data with updated_at := some now }
        (.success story', commitRow db story_id story')

/-- The `{id, title, deleted: true}` marker `stories.delete_story` returns. -/
structure DeleteInfo where
  id : Nat
  title : String
  deleted : Bool
deriving Repr, DecidableEq

/-- `stories.delete_story`: look the story up (raising `ValueError` when
missing), record `{id, title, deleted: true}`, delete and commit. On any
exception: retried with `countdown=60, max_retries=3` unless `no_retry`,
in which case the exception is re-raised at once (terminal FAILURE). -/
def delete_story_task (retries : Nat) (db : StoriesDB) (story_id : Nat)
    (no_retry : Bool) : TaskResult DeleteInfo × StoriesDB :=
  match findStory db story_id with
  | none =>
      let err := s!"Story with id {story_id} not found"
      (if !no_retry then celeryRetry retries 3 60 err else .failureState err, db)
  | some story =>
      (.success ⟨story.id, story.title, true⟩,
       ⟨db.rows.filter (fun r => !(r.id == story_id)), db.nextId⟩)

/-- One step of `patch_story_task`'s loop
`for field, value in patch_data.items(): if hasattr(story, field): setattr`.
Unknown field names are skipped. The modelled value shapes are the ones the
API layer can produce (the routers only ever send `{"is_published": bool}`). -/
def applyPatchField (r : StoryRow) (f : String × JVal) : StoryRow :=
  match f with
  | ("title", .str s) => { r with title := s }
  | ("content", .str s) => { r with content := s }
  | ("author", .str s) => { r with author := s }
  | ("genre", .str s) => { r with genre := some s }
  | ("genre", .null) => { r with genre := none }
  | ("is_published", .bool b) => { r with is_published := b }
  | _ => r

/-- `stories.patch_story`: look the story up (raising `ValueError` when
missing), apply the raw patch dict field by field, commit and return the
refreshed snapshot. SQLAlchemy's flush emits an UPDATE only when some
attribute ends up net-changed from its stored value; only then does the
`onupdate` hook set `updated_at := now`, otherwise the row is left
untouched. Any exception is retried with `countdown=60, max_retries=3`. -/
def patch_story_task (retries : Nat) (db : StoriesDB) (now : Nat)
    (story_id : Nat) (patch_data : List (String × JVal)) :
    TaskResult StoryRow × StoriesDB :=
  match findStory db story_id with
  | none =>
      (celeryRetry retries 3 60 s!"Story with id {story_id} not found", db)
  | some story =>
      if patch_data.foldl applyPatchField story = story then (.success story, db)
      else
        let story'' :=
          { patch_data.foldl applyPatchField story with updated_at := some now }
        (.success story'', commitRow db story_id story'')

/-! ## LLM Celery tasks (`src/app/celery_app/tasks/llm.py`)

The LLM provider is an external collaborator; it is abstracted as a record of
four functions, each returning the generated text or raising (`Except.error`).
Each task body is a function of the Celery retry count, the service and the
task arguments; it returns the attempt's `TaskResult` paired with a flag
recording whether the model service was invoked during the attempt. All four
bodies wrap everything in one `try/except` whose handler calls
`self.retry(countdown=60, max_retries=2, exc=exc)`. -/

/-- The async LLM service collaborator (`app.llm.services`), abstracted. -/
structure LLMService where
  generate : String → String → String → String → Except String String
  analyze : String → String → Except String String
  summarize : String → String → String → Except String String
  improve : String → String → String → String → Except String String

/-- `llm.generate_story`: no enum validation; the service call's failure is
retried with `countdown=60, max_retries=2`. -/
def generate_story_task (retries : Nat) (svc : LLMService) (prompt : String)
    (genre : String := "fiction") (length : String := "short")
    (style : String := "engaging") : TaskResult String × Bool :=
  match svc.generate prompt genre length style with
  | .ok story => (.success story, true)
  | .error e => (celeryRetry retries 2 60 e, true)

/-- `llm.analyze_story`: first validates
`analysis_type ∈ ["sentiment", "genre", "full"]`, raising `ValueError`
otherwise; only then is the service obtained and called. Both the validation
error and a service failure are caught by the same handler and retried with
`countdown=60, max_retries=2`. -/
def analyze_story_task (retries : Nat) (svc : LLMService) (content : String)
    (analysis_type : String := "full") : TaskResult String × Bool :=
  if !(["sentiment", "genre", "full"].contains analysis_type) then
    (celeryRetry retries 2 60 "Invalid analysis type. Must be one of: [sentiment, genre, full]",
     false)
  else
    match svc.analyze content analysis_type with
    | .ok a => (.success a, true)
    | .error e => (celeryRetry retries 2 60 e, true)

/-- `llm.summarize_story`: first validates
`summary_length ∈ ["brief", "detailed"]`, raising `ValueError` otherwise;
only then is the service obtained and called. Both the validation error and a
service failure are caught by the same handler and retried with
`countdown=60, max_retries=2`. -/
def summarize_story_task (retries : Nat) (svc : LLMService) (content : String)
    (summary_length : String := "brief")
    (focus : String := "main plot and characters") : TaskResult String × Bool :=
  if !(["brief", "detailed"].contains summary_length) then
    (celeryRetry retries 2 60 "Invalid summary length. Must be one of: [brief, detailed]",
     false)
  else
    match svc.summarize content summary_length focus with
    | .ok s => (.success s, true)
    | .error e => (celeryRetry retries 2 60 e, true)

/-- `llm.improve_story`: first validates
`improvement_type ∈ ["general", "grammar", "style"]`, raising `ValueError`
otherwise; only then is the service obtained and called. Both the validation
error and a service failure are caught by the same handler and retried with
`countdown=60, max_retries=2`. -/
def improve_story_task (retries : Nat) (svc : LLMService) (content : String)
    (improvement_type : String := "general")
    (focus_area : String := "overall quality")
    (target_audience : String := "general readers") : TaskResult String × Bool :=
  if !(["general", "grammar", "style"].contains improvement_type) then
    (celeryRetry retries 2 60 "Invalid improvement type. Must be one of: [general, grammar, style]",
     false)
  else
    match svc.improve content improvement_type focus_area target_audience with
    | .ok s => (.success s, true)
    | .error e => (celeryRetry retries 2 60 e, true)

/-! ## Celery result store and `TaskService` (`src/app/services/task_service.py`) -/

/-- Celery task states. -/
inductive CeleryState where
  | PENDING
  | STARTED
  | RETRY
  | SUCCESS
  | FAILURE
  | REVOKED
deriving Repr, DecidableEq

/-- Celery's READY_STATES: `AsyncResult.ready()` holds exactly for
SUCCESS, FAILURE and REVOKED. -/
def CeleryState.ready : CeleryState → Bool
  | .SUCCESS => true
  | .FAILURE => true
  | .REVOKED => true
  | _ => false

/-- `AsyncResult.successful()`: state is SUCCESS. -/
def CeleryState.successful : CeleryState → Bool
  | .SUCCESS => true
  | _ => false

/-- `AsyncResult.failed()`: state is FAILURE. -/
def CeleryState.failed : CeleryState → Bool
  | .FAILURE => true
  | _ => false

/-- What the result store holds for one task id. -/
structure TaskRecord where
  state : CeleryState
  result : Option JVal
  traceback : Option String
deriving Repr, DecidableEq

/-- The shared Celery result store, keyed by task id. -/
def ResultStore := List (String × TaskRecord)

/-- `AsyncResult(task_id).status`: the stored state, or PENDING when the id is
unknown (the broker cannot distinguish "never existed" from "not started"). -/
def storeState (b : ResultStore) (task_id : String) : CeleryState :=
  match (b.find? (fun kv => kv.1 == task_id)) with
  | some kv => kv.2.state
  | none => .PENDING

/-- `AsyncResult(task_id).result` (also exposed as `.info`). -/
def storeResult (b : ResultStore) (task_id : String) : Option JVal :=
  match (b.find? (fun kv => kv.1 == task_id)) with
  | some kv => kv.2.result
  | none => none

/-- `AsyncResult(task_id).traceback`. -/
def storeTraceback (b : ResultStore) (task_id : String) : Option String :=
  match (b.find? (fun kv => kv.1 == task_id)) with
  | some kv => kv.2.traceback
  | none => none

/-- The dict returned by `TaskService.get_task_status`. -/
structure TaskStatus where
  task_id : String
  status : CeleryState
  result : Option JVal
  info : Option JVal
  traceback : Option String
  successful : Option Bool
  failed : Option Bool
deriving Repr, DecidableEq

/-- `TaskService.get_task_status`: a total function of the result store —
`result`, `successful` and `failed` are gated on `AsyncResult.ready()`,
`info` and `traceback` are passed through ungated. -/
def get_task_status (b : ResultStore) (task_id : String) : TaskStatus :=
  let st := storeState b task_id
  { task_id := task_id
    status := st
    result := if st.ready then storeResult b task_id else none
    info := storeResult b task_id
    traceback := storeTraceback b task_id
    successful := if st.ready then some st.successful else none
    failed := if st.ready then some st.failed else none }

/-- Broker control state: the set of task ids a revoke request was issued
for. `AsyncResult.revoke(terminate=True)` records the id. -/
structure BrokerCtl where
  revoked : List String
deriving Repr, DecidableEq

/-- `AsyncResult(task_id).revoke(terminate=True)`. -/
def revokeTask (ctl : BrokerCtl) (task_id : String) : BrokerCtl :=
  ⟨task_id :: ctl.revoked⟩

/-- `TaskService.cancel_task`: issues the revoke request, then returns `True`
unconditionally. -/
def cancel_task (ctl : BrokerCtl) (task_id : String) : BrokerCtl × Bool :=
  (revokeTask ctl task_id, true)

/-- A task message enqueued by `send_task('stories.update_story', ...)` or
`send_task('stories.delete_story', ...)`, with the `no_retry` flag packed as
the trailing positional argument. -/
structure SentStoryTask where
  name : String
  story_id : Nat
  no_retry : Bool
deriving Repr, DecidableEq

/-- `TaskService.update_story_async`: computes
`no_retry = retry_config is not None and retry_config.get("retry") is False`
(a Python identity test against the boolean `False`, which `0` or a missing
key does not satisfy) and enqueues `stories.update_story`. -/
def update_story_async (story_id : Nat)
    (retry_config : Option (List (String × JVal)) := none) : SentStoryTask :=
  let no_retry :=
    match retry_config with
    | none => false
    | some cfg => dictGet cfg "retry" == some (.bool false)
  ⟨"stories.update_story", story_id, no_retry⟩

/-- `TaskService.delete_story_async`: same `no_retry` computation as
`update_story_async`, enqueuing `stories.delete_story`. -/
def delete_story_async (story_id : Nat)
    (retry_config : Option (List (String × JVal)) := none) : SentStoryTask :=
  let no_retry :=
    match retry_config with
    | none => false
    | some cfg => dictGet cfg "retry" == some (.bool false)
  ⟨"stories.delete_story", story_id, no_retry⟩

/-! ## HTTP layer (`src/app/routers/llm.py`, `stories.py`, `tasks.py`)

Each handler is modelled with the FastAPI/Pydantic body-validation step in
front of it (a violated `Field` constraint makes FastAPI answer 422 before
the handler runs) and returns either an error status/detail pair or its
response model, together with the list of task names passed to `send_task`
during the call. -/

/-- A FastAPI error response (`HTTPException` or the 422 validation answer). -/
structure HTTPError where
  status_code : Nat
  detail : String
deriving Repr, DecidableEq

/-- The `TaskResponse` schema returned by every submitting endpoint. -/
structure TaskResponse where
  task_id : String
  status : String
  message : String
  estimated_time : Option Nat
deriving Repr, DecidableEq

/-- Outcome of one HTTP request: the response and the tasks dispatched. -/
structure HandlerOutcome where
  response : Except HTTPError TaskResponse
  dispatched : List String
deriving Repr

/-- Body of `POST /api/v1/llm/analyze` (`StoryAnalysisRequest`). -/
structure StoryAnalysisRequest where
  content : String
  analysis_type : String := "full"
deriving Repr, DecidableEq

/-- Pydantic `Field` constraints of `StoryAnalysisRequest`:
`content` 50..10000 chars; `analysis_type` is a plain `str`, unconstrained
at this layer. -/
def StoryAnalysisRequest.pydanticValid (r : StoryAnalysisRequest) : Bool :=
  50 ≤ r.content.length && r.content.length ≤ 10000

/-- `POST /api/v1/llm/analyze`: FastAPI answers 422 on a body failing the
Pydantic constraints; the handler itself then checks
`analysis_type ∈ ["sentiment", "genre", "full"]` and raises
`HTTPException(status_code=400, ...)` on violation before any `send_task`;
otherwise it dispatches `llm.analyze_story` and answers the task handle with
`estimated_time=45`. `fresh_id` is the task id the broker client assigns. -/
def analyze_story_endpoint (fresh_id : String) (r : StoryAnalysisRequest) :
    HandlerOutcome :=
  if !r.pydanticValid then
    ⟨.error ⟨422, "request body validation error"⟩, []⟩
  else if !(["sentiment", "genre", "full"].contains r.analysis_type) then
    ⟨.error ⟨400, "Invalid analysis type. Must be one of: [sentiment, genre, full]"⟩, []⟩
  else
    ⟨.ok ⟨fresh_id, "PENDING", "Story analysis task submitted successfully", some 45⟩,
     ["llm.analyze_story"]⟩

/-- Body of `POST /api/v1/llm/summarize` (`StorySummaryRequest`). -/
structure StorySummaryRequest where
  content : String
  summary_length : String := "brief"
deriving Repr, DecidableEq

/-- Pydantic `Field` constraints of `StorySummaryRequest`:
`content` 100..20000 chars; `summary_length` is a plain `str`. -/
def StorySummaryRequest.pydanticValid (r : StorySummaryRequest) : Bool :=
  100 ≤ r.content.length && r.content.length ≤ 20000

/-- `POST /api/v1/llm/summarize`: 422 on Pydantic violation; the handler
checks `summary_length ∈ ["brief", "detailed"]` and raises
`HTTPException(status_code=400, ...)` on violation before any `send_task`;
otherwise dispatches `llm.summarize_story` with `estimated_time=30`. -/
def summarize_story_endpoint (fresh_id : String) (r : StorySummaryRequest) :
    HandlerOutcome :=
  if !r.pydanticValid then
    ⟨.error ⟨422, "request body validation error"⟩, []⟩
  else if !(["brief", "detailed"].contains r.summary_length) then
    ⟨.error ⟨400, "Invalid summary length. Must be one of: [brief, detailed]"⟩, []⟩
  else
    ⟨.ok ⟨fresh_id, "PENDING", "Story summarization task submitted successfully", some 30⟩,
     ["llm.summarize_story"]⟩

/-- Body of `POST /api/v1/llm/improve` (`StoryImprovementRequest`). -/
structure StoryImprovementRequest where
  content : String
  improvement_type : String := "general"
deriving Repr, DecidableEq

/-- Pydantic `Field` constraints of `StoryImprovementRequest`:
`content` 50..15000 chars; `improvement_type` is a plain `str`. -/
def StoryImprovementRequest.pydanticValid (r : StoryImprovementRequest) : Bool :=
  50 ≤ r.content.length && r.content.length ≤ 15000

/-- `POST /api/v1/llm/improve`: 422 on Pydantic violation; the handler checks
`improvement_type ∈ ["general", "grammar", "style"]` and raises
`HTTPException(status_code=400, ...)` on violation before any `send_task`;
otherwise dispatches `llm.improve_story` with `estimated_time=90`. -/
def improve_story_endpoint (fresh_id : String) (r : StoryImprovementRequest) :
    HandlerOutcome :=
  if !r.pydanticValid then
    ⟨.error ⟨422, "request body validation error"⟩, []⟩
  else if !(["general", "grammar", "style"].contains r.improvement_type) then
    ⟨.error ⟨400, "Invalid improvement type. Must be one of: [general, grammar, style]"⟩, []⟩
  else
    ⟨.ok ⟨fresh_id, "PENDING", "Story improvement task submitted successfully", some 90⟩,
     ["llm.improve_story"]⟩

/-- `GET /stories/{story_id}`: 404 when missing, otherwise the row. -/
def get_story_endpoint (db : StoriesDB) (story_id : Nat) :
    Except HTTPError StoryRow :=
  match findStory db story_id with
  | none => .error ⟨404, "Story not found"⟩
  | some story => .ok story

/-- The patch payload `publish_story` submits: `{"is_published": True}`. -/
def publishPatch : List (String × JVal) := [("is_published", .bool true)]

/-- The patch payload `unpublish_story` submits: `{"is_published": False}`. -/
def unpublishPatch : List (String × JVal) := [("is_published", .bool false)]

/-- The `TaskCancelResponse` schema. -/
structure TaskCancelResponse where
  task_id : String
  cancelled : Bool
  message : String
deriving Repr, DecidableEq

/-- `DELETE /api/v1/tasks/{task_id}`: calls `TaskService.cancel_task` and
builds the response with the message chosen by the returned flag. -/
def cancel_task_endpoint (ctl : BrokerCtl) (task_id : String) :
    BrokerCtl × TaskCancelResponse :=
  let r := cancel_task ctl task_id
  (r.1,
   ⟨task_id, r.2,
    if r.2 then "Task cancelled successfully" else "Failed to cancel task"⟩)

/-! ## Specification predicates used by the claim theorems -/

/-- What one successful `update_story_task` run guarantees: the returned
snapshot is also the stored row, `id` and `created_at` are untouched, every
supplied payload field takes the supplied value, every omitted payload field
keeps its prior value, and `updated_at` is refreshed to the commit instant
exactly when the update has a net effect — a payload whose supplied values
all equal the stored ones (in particular an empty payload) emits no UPDATE
and leaves the whole row, `updated_at` included, unchanged. -/
def UpdateFrameSpec (retries : Nat) (db : StoriesDB) (now sid : Nat)
    (u : StoryUpdateData) (row : StoryRow) : Prop :=
  ∃ row',
    (update_story_task retries db now sid u false).1 = .success row' ∧
    findStory (update_story_task retries db now sid u false).2 sid = some row' ∧
    row'.id = row.id ∧
    row'.created_at = row.created_at ∧
    (u.title = none → row'.title = row.title) ∧
    (∀ t, u.title = some t → row'.title = t) ∧
    (u.content = none → row'.content = row.content) ∧
    (∀ c, u.content = some c → row'.content = c) ∧
    (u.author = none → row'.author = row.author) ∧
    (∀ a, u.author = some a → row'.author = a) ∧
    (u.genre = none → row'.genre = row.genre) ∧
    (∀ g, u.genre = some g → row'.genre = g) ∧
    (u.is_published = none → row'.is_published = row.is_published) ∧
    (∀ b, u.is_published = some b → row'.is_published = b) ∧
    (applyUpdate row u = row → row' = row) ∧
    (applyUpdate row u ≠ row → row'.updated_at = some now)

/-- What one successful `create_story_task` run guarantees about the returned
snapshot: field-for-field equality with the input payload, id from the
autoincrement counter, `created_at` set to the insert instant, `updated_at`
NULL, and `is_published` defaulting to `False` when the payload omitted it. -/
def CreateResultSpec (retries : Nat) (db : StoriesDB) (now : Nat)
    (d : StoryCreateData) : Prop :=
  ∃ row,
    (create_story_task retries db now d).1 = .success row ∧
    row.id = db.nextId ∧
    row.title = d.title ∧
    row.content = d.content ∧
    row.author = d.author ∧
    row.genre = d.genre ∧
    row.created_at = some now ∧
    row.updated_at = none ∧
    (d.is_published = none → row.is_published = false) ∧
    (∀ b, d.is_published = some b → row.is_published = b)

/-- The publish/unpublish round trip: publishing then reading shows
`is_published = true`; unpublishing then reading shows `is_published =
false`, which matches the pre-publish state exactly when the story was
unpublished to begin with. -/
def PublishRoundTripSpec (r1 r2 : Nat) (db : StoriesDB) (n1 n2 sid : Nat)
    (row : StoryRow) : Prop :=
  ∃ rowP,
    (patch_story_task r1 db n1 sid publishPatch).1 = .success rowP ∧
    get_story_endpoint (patch_story_task r1 db n1 sid publishPatch).2 sid =
      .ok rowP ∧
    rowP.is_published = true ∧
    ∃ rowU,
      (patch_story_task r2 (patch_story_task r1 db n1 sid publishPatch).2
          n2 sid unpublishPatch).1 = .success rowU ∧
      get_story_endpoint
          (patch_story_task r2 (patch_story_task r1 db n1 sid publishPatch).2
            n2 sid unpublishPatch).2 sid = .ok rowU ∧
      rowU.is_published = false ∧
      (row.is_published = false → rowU.is_published = row.is_published)

/-! ## Helper lemmas -/

/-- A `retryState` outcome of `celeryRetry` carries exactly the countdown and
error it was called with, and can only arise below the retry cap. -/
theorem celeryRetry_retryState_inv {α : Type} {r m cd : Nat} {e : String}
    {c' : Nat} {e' : String}
    (h : (celeryRetry r m cd e : TaskResult α) = .retryState c' e') :
    c' = cd ∧ e' = e ∧ r < m := by
  unfold celeryRetry at h
  split at h
  · cases h
    exact ⟨rfl, rfl, by assumption⟩
  · cases h

/-- A found story has the looked-up id. -/
theorem findStory_some_id {db : StoriesDB} {sid : Nat} {r : StoryRow}
    (h : findStory db sid = some r) : r.id = sid := by
  have := List.find?_some h
  simpa using this

/-- Replacing, by id, a row that is present makes the next lookup of that id
return the replacement (provided the replacement keeps the id). -/
theorem find?_map_replace (l : List StoryRow) (sid : Nat) (row : StoryRow)
    (r0 : StoryRow) (h : l.find? (fun r => r.id == sid) = some r0)
    (hid : row.id = sid) :
    (l.map (fun r => if r.id == sid then row else r)).find?
      (fun r => r.id == sid) = some row := by
  induction l with
  | nil => simp [List.find?] at h
  | cons a t ih =>
    cases hb : (a.id == sid) with
    | true =>
      simp only [List.map_cons, if_pos hb]
      have hr : (row.id == sid) = true := by simp [hid]
      simp [List.find?_cons, hr]
    | false =>
      simp only [List.find?_cons, hb] at h
      have hnb : ¬ ((a.id == sid) = true) := by simp [hb]
      simp only [List.map_cons, if_neg hnb]
      simp only [List.find?_cons, hb]
      exact ih h

/-- `commitRow` version of the replacement lemma, phrased on `findStory`. -/
theorem findStory_commitRow {db : StoriesDB} {sid : Nat} {row r0 : StoryRow}
    (h : findStory db sid = some r0) (hid : row.id = sid) :
    findStory (commitRow db sid row) sid = some row := by
  unfold findStory commitRow at *
  exact find?_map_replace db.rows sid row r0 h hid

/-! ## Claim theorems -/

/-- C2: for `update_story` and `delete_story`, a "story not found" error with
`no_retry = true` is re-raised immediately — the attempt ends in terminal
FAILURE regardless of the current retry count, never in RETRY — while with
`no_retry = false` the same error goes through the usual transient-error
retry call (`countdown=60, max_retries=3`), so it is re-queued in RETRY
whenever fewer than 3 retries have happened. -/
theorem not_found_no_retry_fails_immediately
    (retries : Nat) (db : StoriesDB) (now sid : Nat) (u : StoryUpdateData)
    (h : findStory db sid = none) :
    (update_story_task retries db now sid u true).1 =
      .failureState s!"Story with id {sid} not found" ∧
    (delete_story_task retries db sid true).1 =
      .failureState s!"Story with id {sid} not found" ∧
    (update_story_task retries db now sid u false).1 =
      celeryRetry retries 3 60 s!"Story with id {sid} not found" ∧
    (delete_story_task retries db sid false).1 =
      celeryRetry retries 3 60 s!"Story with id {sid} not found" ∧
    (retries < 3 →
      (update_story_task retries db now sid u false).1 =
        .retryState 60 s!"Story with id {sid} not found" ∧
      (delete_story_task retries db sid false).1 =
        .retryState 60 s!"Story with id {sid} not found") := by
  refine ⟨?_, ?_, ?_, ?_, ?_⟩ <;>
    simp [update_story_task, delete_story_task, h, celeryRetry]

/-- Witness for C2 at the spec's concrete scenario C: id 999999 on an empty
database, `no_retry = true`, first attempt. -/
theorem not_found_no_retry_fails_immediately_witness :
    findStory ⟨[], 1⟩ 999999 = none ∧
    (update_story_task 0 ⟨[], 1⟩ 0 999999 {} true).1 =
      .failureState "Story with id 999999 not found" ∧
    (delete_story_task 0 ⟨[], 1⟩ 999999 true).1 =
      .failureState "Story with id 999999 not found" :=
  ⟨rfl,
   (not_found_no_retry_fails_immediately 0 ⟨[], 1⟩ 0 999999 {} rfl).1,
   (not_found_no_retry_fails_immediately 0 ⟨[], 1⟩ 0 999999 {} rfl).2.1⟩

/-- C9: `TaskService.cancel_task` returns `True` unconditionally after issuing
the revoke request, for every task id (including ids never dispatched), so
`DELETE /tasks/{task_id}` always answers `cancelled == true` with the message
"Task cancelled successfully". -/
theorem cancel_task_always_true (ctl : BrokerCtl) (task_id : String) :
    (cancel_task ctl task_id).2 = true ∧
    (cancel_task_endpoint ctl task_id).2 =
      ⟨task_id, true, "Task cancelled successfully"⟩ :=
  ⟨rfl, rfl⟩

/-- C10: `update_story_async` / `delete_story_async` enqueue with
`no_retry = true` exactly when `retry_config` is provided and its `"retry"`
key holds the boolean `False`; in particular the docstring's own example
`{"max_retries": 0, "countdown": 1}` leaves the retry loop enabled. -/
theorem no_retry_iff_retry_key_is_false
    (sid : Nat) (rc : Option (List (String × JVal))) :
    ((update_story_async sid rc).no_retry = true ↔
      ∃ cfg, rc = some cfg ∧ dictGet cfg "retry" = some (.bool false)) ∧
    ((delete_story_async sid rc).no_retry = true ↔
      ∃ cfg, rc = some cfg ∧ dictGet cfg "retry" = some (.bool false)) ∧
    (update_story_async sid rc).name = "stories.update_story" ∧
    (delete_story_async sid rc).name = "stories.delete_story" ∧
    (update_story_async sid
      (some [("max_retries", .int 0), ("countdown", .int 1)])).no_retry = false ∧
    (delete_story_async sid
      (some [("max_retries", .int 0), ("countdown", .int 1)])).no_retry = false := by
  refine ⟨?_, ?_, rfl, rfl, rfl, rfl⟩ <;>
    cases rc <;> simp [update_story_async, delete_story_async]

/-- C3 (amended): `get_task_status` is a total function of the result store —
it never raises; an unknown task id yields a PENDING-shaped status with
`result`, `successful` and `failed` all `None`; the three fields are `None`
whenever the status is not in Celery's READY_STATES, and `successful`/`failed`
are populated exactly when the status is terminal — which includes REVOKED,
not only terminal-success and terminal-failure. -/
theorem get_task_status_field_gating (b : ResultStore) (tid : String) :
    ((b.find? (fun kv => kv.1 == tid)) = none →
      (get_task_status b tid).status = .PENDING ∧
      (get_task_status b tid).result = none ∧
      (get_task_status b tid).successful = none ∧
      (get_task_status b tid).failed = none) ∧
    ((get_task_status b tid).status.ready = false →
      (get_task_status b tid).result = none ∧
      (get_task_status b tid).successful = none ∧
      (get_task_status b tid).failed = none) ∧
    ((get_task_status b tid).status.ready = true →
      (get_task_status b tid).successful =
        some (get_task_status b tid).status.successful ∧
      (get_task_status b tid).failed =
        some (get_task_status b tid).status.failed) := by
  refine ⟨?_, ?_, ?_⟩
  · intro h
    simp [get_task_status, storeState, storeResult, h, CeleryState.ready]
  · intro h
    simp only [get_task_status] at h ⊢
    simp [h]
  · intro h
    simp only [get_task_status] at h ⊢
    simp [h]

/-- C3 counterexample: a REVOKED task is terminal but neither
terminal-success nor terminal-failure, yet Celery counts REVOKED among the
READY_STATES, so `get_task_status` populates `successful`/`failed` with
`some false` instead of leaving them `None` as the claim requires. -/
theorem revoked_task_populates_flags_counterexample :
    (get_task_status [("t1", ⟨.REVOKED, none, none⟩)] "t1").status = .REVOKED ∧
    (get_task_status [("t1", ⟨.REVOKED, none, none⟩)] "t1").successful = some false ∧
    (get_task_status [("t1", ⟨.REVOKED, none, none⟩)] "t1").failed = some false ∧
    ((some false : Option Bool) ≠ none) :=
  ⟨rfl, rfl, rfl, by simp⟩

/-- Witness for C3: evaluating the gating theorem at an empty store and an
unknown id. -/
theorem get_task_status_field_gating_witness :
    (get_task_status [] "unknown").status = .PENDING ∧
    (get_task_status [] "unknown").successful = none :=
  ⟨((get_task_status_field_gating [] "unknown").1 rfl).1,
   ((get_task_status_field_gating [] "unknown").1 rfl).2.2.1⟩

/-- C4 (amended): a request whose body passes the Pydantic `Field`
constraints but whose enum-constrained field is outside its valid set is
rejected by the handler with HTTP status 400 (an `HTTPException` raised in
the endpoint body, not FastAPI's 422 validation answer), and no `send_task`
call occurs. -/
theorem invalid_enum_rejected_with_400_no_dispatch
    (fid : String) (ra : StoryAnalysisRequest) (rs : StorySummaryRequest)
    (ri : StoryImprovementRequest)
    (hva : ra.pydanticValid = true)
    (hea : (["sentiment", "genre", "full"].contains ra.analysis_type) = false)
    (hvs : rs.pydanticValid = true)
    (hes : (["brief", "detailed"].contains rs.summary_length) = false)
    (hvi : ri.pydanticValid = true)
    (hei : (["general", "grammar", "style"].contains ri.improvement_type) = false) :
    (analyze_story_endpoint fid ra).response =
      .error ⟨400, "Invalid analysis type. Must be one of: [sentiment, genre, full]"⟩ ∧
    (analyze_story_endpoint fid ra).dispatched = [] ∧
    (summarize_story_endpoint fid rs).response =
      .error ⟨400, "Invalid summary length. Must be one of: [brief, detailed]"⟩ ∧
    (summarize_story_endpoint fid rs).dispatched = [] ∧
    (improve_story_endpoint fid ri).response =
      .error ⟨400, "Invalid improvement type. Must be one of: [general, grammar, style]"⟩ ∧
    (improve_story_endpoint fid ri).dispatched = [] := by
  have hea' := hea
  have hes' := hes
  have hei' := hei
  simp at hea' hes' hei'
  refine ⟨?_, ?_, ?_, ?_, ?_, ?_⟩ <;>
    simp [analyze_story_endpoint, summarize_story_endpoint,
      improve_story_endpoint, hva, hvs, hvi, hea', hes', hei']

set_option maxRecDepth 10000 in
/-- C4 counterexample: a 100-character body with `analysis_type = "invalid"`
passes Pydantic validation and is rejected by the handler with status 400 —
not 422 as the claim states — and nothing is dispatched. -/
theorem analyze_invalid_enum_gets_400_not_422_counterexample :
    (analyze_story_endpoint "tid-1"
        ⟨String.mk (List.replicate 100 'a'), "invalid"⟩).response =
      .error ⟨400, "Invalid analysis type. Must be one of: [sentiment, genre, full]"⟩ ∧
    (analyze_story_endpoint "tid-1"
        ⟨String.mk (List.replicate 100 'a'), "invalid"⟩).dispatched = [] ∧
    (400 : Nat) ≠ 422 :=
  ⟨rfl, rfl, by decide⟩

set_option maxRecDepth 10000 in
/-- Witness for C4: a 150-character body with enum value "bogus" at each of
the three endpoints. -/
theorem invalid_enum_rejected_with_400_no_dispatch_witness :
    (summarize_story_endpoint "t"
        ⟨String.mk (List.replicate 150 'a'), "bogus"⟩).response =
      .error ⟨400, "Invalid summary length. Must be one of: [brief, detailed]"⟩ :=
  (invalid_enum_rejected_with_400_no_dispatch "t"
    ⟨String.mk (List.replicate 150 'a'), "bogus"⟩
    ⟨String.mk (List.replicate 150 'a'), "bogus"⟩
    ⟨String.mk (List.replicate 150 'a'), "bogus"⟩
    rfl rfl rfl rfl rfl rfl).2.2.1

/-- C1 (amended): an invalid `summary_length` (resp. `analysis_type`) makes
the task raise `ValueError` before the LLM service is ever obtained, so no
model call occurs on any attempt; but the blanket `except` handler feeds the
error to `self.retry(countdown=60, max_retries=2)`, so the attempt ends in
the RETRY state while fewer than 2 retries have happened and only then in
terminal FAILURE — not in an immediate terminal failure as claimed. -/
theorem invalid_enum_llm_tasks_retry_without_model_call
    (retries : Nat) (svc : LLMService) (content slen foc atype : String)
    (hs : (["brief", "detailed"].contains slen) = false)
    (ha : (["sentiment", "genre", "full"].contains atype) = false) :
    (summarize_story_task retries svc content slen foc).2 = false ∧
    (analyze_story_task retries svc content atype).2 = false ∧
    (summarize_story_task retries svc content slen foc).1 =
      celeryRetry retries 2 60 "Invalid summary length. Must be one of: [brief, detailed]" ∧
    (analyze_story_task retries svc content atype).1 =
      celeryRetry retries 2 60 "Invalid analysis type. Must be one of: [sentiment, genre, full]" ∧
    (retries < 2 →
      (summarize_story_task retries svc content slen foc).1 =
        .retryState 60 "Invalid summary length. Must be one of: [brief, detailed]" ∧
      (analyze_story_task retries svc content atype).1 =
        .retryState 60 "Invalid analysis type. Must be one of: [sentiment, genre, full]") ∧
    (2 ≤ retries →
      (summarize_story_task retries svc content slen foc).1 =
        .failureState "Invalid summary length. Must be one of: [brief, detailed]" ∧
      (analyze_story_task retries svc content atype).1 =
        .failureState "Invalid analysis type. Must be one of: [sentiment, genre, full]") := by
  have hs' := hs
  have ha' := ha
  simp at hs' ha'
  refine ⟨?_, ?_, ?_, ?_, ?_, ?_⟩ <;>
    simp [summarize_story_task, analyze_story_task, hs', ha', celeryRetry]

/-- C1 counterexample: the very first attempt of `llm.summarize_story` with
`summary_length = "medium"` (outside {brief, detailed}) ends in the RETRY
state with a 60s countdown — the claim says such an invocation ends in a
terminal failure and never enters RETRY. The model is not called. -/
theorem summarize_invalid_length_enters_retry_counterexample :
    (summarize_story_task 0
        ⟨fun _ _ _ _ => .ok "g", fun _ _ => .ok "a", fun _ _ _ => .ok "s",
          fun _ _ _ _ => .ok "i"⟩
        "story content" "medium" "main plot and characters").1 =
      .retryState 60 "Invalid summary length. Must be one of: [brief, detailed]" ∧
    (summarize_story_task 0
        ⟨fun _ _ _ _ => .ok "g", fun _ _ => .ok "a", fun _ _ _ => .ok "s",
          fun _ _ _ _ => .ok "i"⟩
        "story content" "medium" "main plot and characters").2 = false :=
  ⟨rfl, rfl⟩

/-- Witness for C1: `summary_length = "medium"`, `analysis_type = "bogus"`
at the first attempt. -/
theorem invalid_enum_llm_tasks_retry_without_model_call_witness :
    (["brief", "detailed"].contains "medium") = false ∧
    (analyze_story_task 0
        ⟨fun _ _ _ _ => .ok "g", fun _ _ => .ok "a", fun _ _ _ => .ok "s",
          fun _ _ _ _ => .ok "i"⟩
        "some content" "bogus").2 = false :=
  ⟨rfl,
   (invalid_enum_llm_tasks_retry_without_model_call 0
      ⟨fun _ _ _ _ => .ok "g", fun _ _ => .ok "a", fun _ _ _ => .ok "s",
        fun _ _ _ _ => .ok "i"⟩
      "some content" "medium" "main plot and characters" "bogus" rfl rfl).2.1⟩

/-- C5: with an erroring collaborator (failing model call, invalid create
payload, missing story id), each LLM task routes the error through
`celeryRetry` with `countdown=60, max_retries=2` and each story-mutation
task through `celeryRetry` with `countdown=60, max_retries=3`; `celeryRetry`
re-queues in RETRY exactly below the cap and fails terminally at the cap;
and — fully universally — every RETRY outcome any of the eight task bodies
ever produces carries the fixed 60-second countdown. -/
theorem retry_fixed_backoff_and_caps
    (retries : Nat) (svc : LLMService) (db : StoriesDB) (now sid : Nat)
    (prompt genre length style content atype slen foc itype farea taud
      e perr : String)
    (u : StoryUpdateData) (cd : StoryCreateData) (pd : List (String × JVal))
    (hg : svc.generate prompt genre length style = .error e)
    (ha : svc.analyze content atype = .error e)
    (hs : svc.summarize content slen foc = .error e)
    (hi : svc.improve content itype farea taud = .error e)
    (hav : (["sentiment", "genre", "full"].contains atype) = true)
    (hsv : (["brief", "detailed"].contains slen) = true)
    (hiv : (["general", "grammar", "style"].contains itype) = true)
    (hp : StoryCreate.parse cd = .error perr)
    (hnf : findStory db sid = none) :
    (generate_story_task retries svc prompt genre length style).1 =
      celeryRetry retries 2 60 e ∧
    (analyze_story_task retries svc content atype).1 =
      celeryRetry retries 2 60 e ∧
    (summarize_story_task retries svc content slen foc).1 =
      celeryRetry retries 2 60 e ∧
    (improve_story_task retries svc content itype farea taud).1 =
      celeryRetry retries 2 60 e ∧
    (create_story_task retries db now cd).1 = celeryRetry retries 3 60 perr ∧
    (update_story_task retries db now sid u false).1 =
      celeryRetry retries 3 60 s!"Story with id {sid} not found" ∧
    (delete_story_task retries db sid false).1 =
      celeryRetry retries 3 60 s!"Story with id {sid} not found" ∧
    (patch_story_task retries db now sid pd).1 =
      celeryRetry retries 3 60 s!"Story with id {sid} not found" ∧
    (∀ (r : Nat) (s : String),
      (celeryRetry r 2 60 s : TaskResult String) = .retryState 60 s ↔ r < 2) ∧
    (∀ (r : Nat) (s : String),
      (celeryRetry r 3 60 s : TaskResult StoryRow) = .retryState 60 s ↔ r < 3) ∧
    (∀ (r : Nat) (sv : LLMService) (p g l st : String) (c : Nat) (err : String),
      (generate_story_task r sv p g l st).1 = .retryState c err → c = 60) ∧
    (∀ (r : Nat) (sv : LLMService) (ct ty : String) (c : Nat) (err : String),
      (analyze_story_task r sv ct ty).1 = .retryState c err → c = 60) ∧
    (∀ (r : Nat) (sv : LLMService) (ct sl fo : String) (c : Nat) (err : String),
      (summarize_story_task r sv ct sl fo).1 = .retryState c err → c = 60) ∧
    (∀ (r : Nat) (sv : LLMService) (ct it fa ta : String) (c : Nat) (err : String),
      (improve_story_task r sv ct it fa ta).1 = .retryState c err → c = 60) ∧
    (∀ (r : Nat) (db' : StoriesDB) (n : Nat) (d : StoryCreateData)
        (c : Nat) (err : String),
      (create_story_task r db' n d).1 = .retryState c err → c = 60) ∧
    (∀ (r : Nat) (db' : StoriesDB) (n i : Nat) (u' : StoryUpdateData) (nr : Bool)
        (c : Nat) (err : String),
      (update_story_task r db' n i u' nr).1 = .retryState c err → c = 60) ∧
    (∀ (r : Nat) (db' : StoriesDB) (i : Nat) (nr : Bool) (c : Nat) (err : String),
      (delete_story_task r db' i nr).1 = .retryState c err → c = 60) ∧
    (∀ (r : Nat) (db' : StoriesDB) (n i : Nat) (pd' : List (String × JVal))
        (c : Nat) (err : String),
      (patch_story_task r db' n i pd').1 = .retryState c err → c = 60) := by
  refine ⟨?_, ?_, ?_, ?_, ?_, ?_, ?_, ?_, ?_, ?_, ?_, ?_, ?_, ?_, ?_, ?_, ?_, ?_⟩
  · simp only [generate_story_task, hg]
  · simp only [analyze_story_task, hav, ha, Bool.not_true]
    simp
  · simp only [summarize_story_task, hsv, hs, Bool.not_true]
    simp
  · simp only [improve_story_task, hiv, hi, Bool.not_true]
    simp
  · simp only [create_story_task, hp]
  · simp only [update_story_task, hnf, Bool.not_false]
    simp
  · simp only [delete_story_task, hnf, Bool.not_false]
    simp
  · simp only [patch_story_task, hnf]
  · intro r s
    constructor
    · intro h
      exact (celeryRetry_retryState_inv h).2.2
    · intro h
      simp [celeryRetry, h]
  · intro r s
    constructor
    · intro h
      exact (celeryRetry_retryState_inv h).2.2
    · intro h
      simp [celeryRetry, h]
  · intro r sv p g l st c err h
    unfold generate_story_task at h
    split at h
    · simp at h
    · exact (celeryRetry_retryState_inv (by simpa using h)).1
  · intro r sv ct ty c err h
    unfold analyze_story_task at h
    split at h
    · exact (celeryRetry_retryState_inv (by simpa using h)).1
    · split at h
      · simp at h
      · exact (celeryRetry_retryState_inv (by simpa using h)).1
  · intro r sv ct sl fo c err h
    unfold summarize_story_task at h
    split at h
    · exact (celeryRetry_retryState_inv (by simpa using h)).1
    · split at h
      · simp at h
      · exact (celeryRetry_retryState_inv (by simpa using h)).1
  · intro r sv ct it fa ta c err h
    unfold improve_story_task at h
    split at h
    · exact (celeryRetry_retryState_inv (by simpa using h)).1
    · split at h
      · simp at h
      · exact (celeryRetry_retryState_inv (by simpa using h)).1
  · intro r db' n d c err h
    unfold create_story_task at h
    split at h
    · exact (celeryRetry_retryState_inv (by simpa using h)).1
    · simp at h
  · intro r db' n i u' nr c err h
    unfold update_story_task at h
    split at h
    · split at h
      · exact (celeryRetry_retryState_inv (by simpa using h)).1
      · simp at h
    · split at h
      · split at h
        · exact (celeryRetry_retryState_inv (by simpa using h)).1
        · simp at h
      · split at h
        · simp at h
        · simp at h
  · intro r db' i nr c err h
    unfold delete_story_task at h
    split at h
    · split at h
      · exact (celeryRetry_retryState_inv (by simpa using h)).1
      · simp at h
    · simp at h
  · intro r db' n i pd' c err h
    unfold patch_story_task at h
    split at h
    · exact (celeryRetry_retryState_inv (by simpa using h)).1
    · split at h
      · simp at h
      · simp at h

/-- Witness for C5: an always-failing model, an invalid create payload
(empty title) and a lookup on an empty database, at the first attempt. -/
theorem retry_fixed_backoff_and_caps_witness :
    LLMService.generate
      ⟨fun _ _ _ _ => .error "boom", fun _ _ => .error "boom",
        fun _ _ _ => .error "boom", fun _ _ _ _ => .error "boom"⟩
      "p" "fiction" "short" "engaging" = .error "boom" ∧
    StoryCreate.parse ⟨"", "C", "A", none, none⟩ =
      .error "validation error: title" ∧
    findStory ⟨[], 1⟩ 7 = none ∧
    (generate_story_task 0
      ⟨fun _ _ _ _ => .error "boom", fun _ _ => .error "boom",
        fun _ _ _ => .error "boom", fun _ _ _ _ => .error "boom"⟩
      "p" "fiction" "short" "engaging").1 = celeryRetry 0 2 60 "boom" :=
  ⟨rfl, rfl, rfl,
   (retry_fixed_backoff_and_caps 0
      ⟨fun _ _ _ _ => .error "boom", fun _ _ => .error "boom",
        fun _ _ _ => .error "boom", fun _ _ _ _ => .error "boom"⟩
      ⟨[], 1⟩ 0 7 "p" "fiction" "short" "engaging" "c" "full" "brief"
      "main plot and characters" "general" "overall quality" "general readers"
      "boom" "validation error: title" {} ⟨"", "C", "A", none, none⟩ []
      rfl rfl rfl rfl rfl rfl rfl rfl rfl).1⟩

/-- C6 (amended): for an existing story and a valid partial payload,
`update_story_task` sets exactly the supplied payload fields among
{title, content, author, genre, is_published} — every omitted payload field
keeps its prior value, in both the returned snapshot and the stored row —
but `updated_at`, an omitted field of the story, is refreshed by the
database's `onupdate` hook whenever the update has a net effect; an update
whose supplied values all equal the stored ones (or an empty one) emits no
UPDATE and leaves the whole row, `updated_at` included, unchanged. -/
theorem update_changes_only_supplied_payload_fields
    (retries : Nat) (db : StoriesDB) (now sid : Nat) (u : StoryUpdateData)
    (row : StoryRow) (hf : findStory db sid = some row)
    (hv : u.valid = true) :
    UpdateFrameSpec retries db now sid u row := by
  have hid := findStory_some_id hf
  by_cases hch : applyUpdate row u = row
  · have hbody : update_story_task retries db now sid u false =
        (.success row, db) := by
      simp [update_story_task, hf, hv, hch]
    have htitle : u.title.getD row.title = row.title := by
      have h := congrArg StoryRow.title hch
      simpa [applyUpdate] using h
    have hcontent : u.content.getD row.content = row.content := by
      have h := congrArg StoryRow.content hch
      simpa [applyUpdate] using h
    have hauthor : u.author.getD row.author = row.author := by
      have h := congrArg StoryRow.author hch
      simpa [applyUpdate] using h
    have hgenre : u.genre.getD row.genre = row.genre := by
      have h := congrArg StoryRow.genre hch
      simpa [applyUpdate] using h
    have hpub : u.is_published.getD row.is_published = row.is_published := by
      have h := congrArg StoryRow.is_published hch
      simpa [applyUpdate] using h
    unfold UpdateFrameSpec
    refine ⟨row, by rw [hbody], by rw [hbody]; exact hf, rfl, rfl,
      ?_, ?_, ?_, ?_, ?_, ?_, ?_, ?_, ?_, ?_, ?_, ?_⟩
    · intro _
      rfl
    · intro t ht
      rw [ht] at htitle
      simpa using htitle.symm
    · intro _
      rfl
    · intro c hc
      rw [hc] at hcontent
      simpa using hcontent.symm
    · intro _
      rfl
    · intro a hau
      rw [hau] at hauthor
      simpa using hauthor.symm
    · intro _
      rfl
    · intro g hgr
      rw [hgr] at hgenre
      simpa using hgenre.symm
    · intro _
      rfl
    · intro b hip
      rw [hip] at hpub
      simpa using hpub.symm
    · intro _
      rfl
    · intro hne
      exact absurd hch hne
  · have hbody : update_story_task retries db now sid u false =
        (.success { applyUpdate row u with updated_at := some now },
         commitRow db sid { applyUpdate row u with updated_at := some now }) := by
      simp [update_story_task, hf, hv, hch]
    have hid' : ({ applyUpdate row u with updated_at := some now } : StoryRow).id =
        sid := by
      simp [applyUpdate, hid]
    unfold UpdateFrameSpec
    refine ⟨{ applyUpdate row u with updated_at := some now },
      by rw [hbody], by rw [hbody]; exact findStory_commitRow hf hid',
      by simp [applyUpdate], by simp [applyUpdate],
      ?_, ?_, ?_, ?_, ?_, ?_, ?_, ?_, ?_, ?_, ?_, ?_⟩
    · intro ht
      simp [applyUpdate, ht]
    · intro t ht
      simp [applyUpdate, ht]
    · intro hc
      simp [applyUpdate, hc]
    · intro c hc
      simp [applyUpdate, hc]
    · intro hau
      simp [applyUpdate, hau]
    · intro a hau
      simp [applyUpdate, hau]
    · intro hgr
      simp [applyUpdate, hgr]
    · intro g hgr
      simp [applyUpdate, hgr]
    · intro hip
      simp [applyUpdate, hip]
    · intro b hip
      simp [applyUpdate, hip]
    · intro h
      exact absurd h hch
    · intro _
      rfl

/-- C6 counterexample: updating story 1 with the partial payload
`{"title": "T2"}` — omitting every other field — changes the omitted story
field `updated_at` from NULL to the commit instant 5 in the returned
snapshot and in the stored row, so not every omitted field of the story
retains its prior value. -/
theorem update_omitted_updated_at_changed_counterexample :
    (update_story_task 0 ⟨[⟨1, "T", "C", "A", none, false, some 0, none⟩], 2⟩
        5 1 { title := some "T2" } false).1 =
      .success ⟨1, "T2", "C", "A", none, false, some 0, some 5⟩ ∧
    findStory
      (update_story_task 0 ⟨[⟨1, "T", "C", "A", none, false, some 0, none⟩], 2⟩
        5 1 { title := some "T2" } false).2 1 =
      some ⟨1, "T2", "C", "A", none, false, some 0, some 5⟩ ∧
    (some 5 : Option Nat) ≠ none :=
  ⟨rfl, rfl, by simp⟩

/-- Witness for C6: story 1 with `updated_at = NULL`, payload supplying only
the title. -/
theorem update_changes_only_supplied_payload_fields_witness :
    findStory ⟨[⟨1, "T", "C", "A", none, false, some 0, none⟩], 2⟩ 1 =
      some ⟨1, "T", "C", "A", none, false, some 0, none⟩ ∧
    StoryUpdateData.valid { title := some "T2" } = true ∧
    UpdateFrameSpec 0 ⟨[⟨1, "T", "C", "A", none, false, some 0, none⟩], 2⟩ 5 1
      { title := some "T2" } ⟨1, "T", "C", "A", none, false, some 0, none⟩ :=
  ⟨rfl, rfl,
   update_changes_only_supplied_payload_fields 0
     ⟨[⟨1, "T", "C", "A", none, false, some 0, none⟩], 2⟩ 5 1
     { title := some "T2" } ⟨1, "T", "C", "A", none, false, some 0, none⟩
     rfl rfl⟩

/-- C7: for every payload accepted by `StoryCreate` validation,
`create_story_task` returns a snapshot whose `title`, `content`, `author`
and `genre` equal the input, whose `created_at` is set to the insert instant
and `updated_at` is NULL, whose `id` is the autoincrement counter's value,
and whose `is_published` is `False` when the payload did not set it. -/
theorem create_story_result_matches_input
    (retries : Nat) (db : StoriesDB) (now : Nat) (d : StoryCreateData)
    (sc : StoryCreate) (h : StoryCreate.parse d = .ok sc) :
    CreateResultSpec retries db now d := by
  have hsc : sc = ⟨d.title, d.content, d.author, d.genre,
      d.is_published.getD false⟩ := by
    unfold StoryCreate.parse at h
    split at h
    · cases h
    · split at h
      · cases h
      · split at h
        · cases h
        · split at h
          · cases h
          · injection h with h1
            exact h1.symm
  unfold CreateResultSpec
  refine ⟨⟨db.nextId, d.title, d.content, d.author, d.genre,
      (d.is_published.getD false || false), some now, none⟩,
    ?_, rfl, rfl, rfl, rfl, rfl, rfl, rfl, ?_, ?_⟩
  · rw [hsc] at h
    simp [create_story_task, h]
  · intro hb
    simp [hb]
  · intro b hb
    simp [hb]

/-- Witness for C7: the spec's concrete scenario A payload
`{"title": "T", "content": "C", "author": "A"}` on an empty database. -/
theorem create_story_result_matches_input_witness :
    StoryCreate.parse ⟨"T", "C", "A", none, none⟩ =
      .ok ⟨"T", "C", "A", none, false⟩ ∧
    CreateResultSpec 0 ⟨[], 1⟩ 7 ⟨"T", "C", "A", none, none⟩ :=
  ⟨rfl,
   create_story_result_matches_input 0 ⟨[], 1⟩ 7 ⟨"T", "C", "A", none, none⟩
     ⟨"T", "C", "A", none, false⟩ rfl⟩

/-- C8 (amended): for every existing story, applying the publish patch then
reading shows `is_published = true`, and the subsequent unpublish patch
round-trips the read to `is_published = false` — which equals the
pre-publish publication state exactly when the story was unpublished before
the round trip (an initially published story ends up `false ≠ true`). -/
theorem publish_unpublish_roundtrip
    (r1 r2 : Nat) (db : StoriesDB) (n1 n2 sid : Nat) (row : StoryRow)
    (hf : findStory db sid = some row) :
    PublishRoundTripSpec r1 r2 db n1 n2 sid row := by
  have hid := findStory_some_id hf
  obtain ⟨i, t, c, a, g, p, ca, ua⟩ := row
  cases p with
  | true =>
    have h1 : patch_story_task r1 db n1 sid publishPatch =
        (.success ⟨i, t, c, a, g, true, ca, ua⟩, db) := by
      simp [patch_story_task, hf, publishPatch, applyPatchField]
    have h2 : patch_story_task r2 db n2 sid unpublishPatch =
        (.success ⟨i, t, c, a, g, false, ca, some n2⟩,
         commitRow db sid ⟨i, t, c, a, g, false, ca, some n2⟩) := by
      simp [patch_story_task, hf, unpublishPatch, applyPatchField]
    have hfU : findStory
        (commitRow db sid ⟨i, t, c, a, g, false, ca, some n2⟩) sid =
        some ⟨i, t, c, a, g, false, ca, some n2⟩ :=
      findStory_commitRow hf hid
    unfold PublishRoundTripSpec
    refine ⟨⟨i, t, c, a, g, true, ca, ua⟩, by rw [h1], ?_, rfl,
      ⟨i, t, c, a, g, false, ca, some n2⟩, ?_, ?_, rfl, ?_⟩
    · rw [h1]
      simp [get_story_endpoint, hf]
    · simp [h1, h2]
    · simp [h1, h2, get_story_endpoint, hfU]
    · intro hcontra
      simp at hcontra
  | false =>
    have h1 : patch_story_task r1 db n1 sid publishPatch =
        (.success ⟨i, t, c, a, g, true, ca, some n1⟩,
         commitRow db sid ⟨i, t, c, a, g, true, ca, some n1⟩) := by
      simp [patch_story_task, hf, publishPatch, applyPatchField]
    have hfP : findStory
        (commitRow db sid ⟨i, t, c, a, g, true, ca, some n1⟩) sid =
        some ⟨i, t, c, a, g, true, ca, some n1⟩ :=
      findStory_commitRow hf hid
    have h2 : patch_story_task r2
        (commitRow db sid ⟨i, t, c, a, g, true, ca, some n1⟩) n2 sid
        unpublishPatch =
        (.success ⟨i, t, c, a, g, false, ca, some n2⟩,
         commitRow (commitRow db sid ⟨i, t, c, a, g, true, ca, some n1⟩) sid
           ⟨i, t, c, a, g, false, ca, some n2⟩) := by
      simp [patch_story_task, hfP, unpublishPatch, applyPatchField]
    have hfU : findStory
        (commitRow (commitRow db sid ⟨i, t, c, a, g, true, ca, some n1⟩) sid
          ⟨i, t, c, a, g, false, ca, some n2⟩) sid =
        some ⟨i, t, c, a, g, false, ca, some n2⟩ :=
      findStory_commitRow hfP hid
    unfold PublishRoundTripSpec
    refine ⟨⟨i, t, c, a, g, true, ca, some n1⟩, by rw [h1], ?_, rfl,
      ⟨i, t, c, a, g, false, ca, some n2⟩, ?_, ?_, rfl, ?_⟩
    · simp [h1, get_story_endpoint, hfP]
    · simp [h1, h2]
    · simp [h1, h2, get_story_endpoint, hfU]
    · intro _
      rfl

/-- C8 counterexample: story 1 is already published (`is_published = true`).
Publishing then unpublishing leaves it with `is_published = false`, which is
not the pre-publish publication state `true`, refuting the claim's "leaving
the result in the pre-publish publication state" for every existing story. -/
theorem publish_unpublish_published_story_counterexample :
    get_story_endpoint
        (patch_story_task 0
          (patch_story_task 0 ⟨[⟨1, "T", "C", "A", none, true, some 0, none⟩], 2⟩
            1 1 publishPatch).2
          2 1 unpublishPatch).2 1 =
      .ok ⟨1, "T", "C", "A", none, false, some 0, some 2⟩ ∧
    (⟨1, "T", "C", "A", none, true, some 0, none⟩ : StoryRow).is_published = true ∧
    (false : Bool) ≠ true :=
  ⟨rfl, rfl, by decide⟩

/-- Witness for C8: an initially unpublished story 1, patched at instants
1 and 2. -/
theorem publish_unpublish_roundtrip_witness :
    findStory ⟨[⟨1, "T", "C", "A", none, false, some 0, none⟩], 2⟩ 1 =
      some ⟨1, "T", "C", "A", none, false, some 0, none⟩ ∧
    PublishRoundTripSpec 0 0 ⟨[⟨1, "T", "C", "A", none, false, some 0, none⟩], 2⟩
      1 2 1 ⟨1, "T", "C", "A", none, false, some 0, none⟩ :=
  ⟨rfl,
   publish_unpublish_roundtrip 0 0
     ⟨[⟨1, "T", "C", "A", none, false, some 0, none⟩], 2⟩ 1 2 1
     ⟨1, "T", "C", "A", none, false, some 0, none⟩ rfl⟩
